import Mathlib

/-!
Verification development for the MCP channel-normalization and routing layer
(`src/mcp-service/app`): a shallow embedding of the normalizers
(`app/normalizers/text.py`, `app/normalizers/image.py`,
`app/normalizers/interactive.py`), the message model
(`app/domain/models/message.py`), the chat router
(`app/routers/chat_router.py`, `app/routers/router_base.py`) and webhook
signature verification (`app/api/routers/webhooks.py`), together with proofs
of the spec's testable properties over that embedding.

Raw channel payloads are JSON-like Python dicts; they are embedded as
association lists of `String × JValue` (Python dict literals have unique
keys, and `k in d` / `d[k]` is first-match lookup).  Fallible Python code
(raising) is embedded as `Except PyErr`.
-/

set_option maxRecDepth 4000

namespace MCP

/-- JSON-like runtime value, the type of the entries of a raw channel payload
dict (`Dict[str, Any]` on the Python side). -/
inductive JValue where
  | null
  | bool (b : Bool)
  | num (n : Int)
  | str (s : String)
  | arr (xs : List JValue)
  | obj (fields : List (String × JValue))
  deriving Repr, BEq, Inhabited

/-- Raw channel payload: a Python `Dict[str, Any]` embedded as an association
list with unique keys (lookup is first-match, matching `dict.__getitem__`). -/
abbrev JObj := List (String × JValue)

/-- Python `k in d` / `d[k]` on a dict: first binding for the key. -/
def jlookup (m : JObj) (k : String) : Option JValue :=
  match m with
  | [] => none
  | (k', v) :: rest => if k' = k then some v else jlookup rest k

/-- Python `d.get(k, default)`. -/
def jget (m : JObj) (k : String) (d : JValue) : JValue :=
  (jlookup m k).getD d

/-- Python `d[k] = v`: replaces the binding in place when the key exists,
appends it otherwise (insertion-order semantics of CPython dicts). -/
def jset (m : JObj) (k : String) (v : JValue) : JObj :=
  match m with
  | [] => [(k, v)]
  | (k', v') :: rest => if k' = k then (k, v) :: rest else (k', v') :: jset rest k v

/-- Python `d.update(other)`: sets every binding of `other` in `d`, in order. -/
def jupdate (m other : JObj) : JObj :=
  other.foldl (fun acc p => jset acc p.1 p.2) m

/-- Python truthiness of a JSON-like value (`bool(v)`): `None`, `False`, `0`,
`""`, `[]` and `{}` are falsy, everything else truthy. -/
def pyTruthy : JValue → Bool
  | .null => false
  | .bool b => b
  | .num n => n != 0
  | .str s => s != ""
  | .arr xs => !xs.isEmpty
  | .obj fs => !fs.isEmpty

/-- Python type name of a JSON-like value, as used in error messages
(`type(v).__name__`). -/
def pyTypeName : JValue → String
  | .null => "NoneType"
  | .bool _ => "bool"
  | .num _ => "int"
  | .str _ => "str"
  | .arr _ => "list"
  | .obj _ => "dict"

mutual
/-- Python `str(v)` for a JSON-like value.  Exact only for the scalar cases
the normalizers rely on (`str` of a string is the string itself); container
rendering models Python `repr`-based formatting. -/
def pyStr : JValue → String
  | .null => "None"
  | .bool b => if b then "True" else "False"
  | .num n => toString n
  | .str s => s
  | .arr xs => "[" ++ pyStrList xs ++ "]"
  | .obj _ => "<dict>"

/-- Helper for `pyStr` on arrays: comma-separated rendering of the items. -/
def pyStrList : List JValue → String
  | [] => ""
  | [x] => pyStr x
  | x :: rest => pyStr x ++ ", " ++ pyStrList rest
end

/-- Exception value raised by the embedded Python code.  `validationError` and
`normalizationError` model `app.utils.exceptions.ValidationError` /
`NormalizationError`; that module is absent from `src/`, so (per the sibling
services' `exceptions.py` and spec §7's taxonomy, in which scenario B has a
`ValidationError` escaping `normalize` unwrapped) both are modelled as direct
`Exception` subclasses: in particular `ValidationError` is NOT caught by
`except (KeyError, ValueError)`. -/
inductive PyErr where
  | keyError (msg : String)
  | valueError (msg : String)
  | attributeError (msg : String)
  | validationError (msg : String)
  | normalizationError (msg : String)
  | routingError (msg : String)
  | httpError (msg : String)
  | timeoutError
  | typeError (msg : String)
  deriving Repr, BEq, DecidableEq

/-- Python `type(e).__name__` for an exception value. -/
def PyErr.excName : PyErr → String
  | .keyError _ => "KeyError"
  | .valueError _ => "ValueError"
  | .attributeError _ => "AttributeError"
  | .validationError _ => "ValidationError"
  | .normalizationError _ => "NormalizationError"
  | .routingError _ => "RoutingError"
  | .httpError _ => "HTTPError"
  | .timeoutError => "TimeoutError"
  | .typeError _ => "TypeError"

/-- Python `str(e)` for an exception value.  `str` of a `KeyError` yields the
`repr` of its argument, i.e. the message wrapped in single quotes. -/
def PyErr.excStr : PyErr → String
  | .keyError m => "'" ++ m ++ "'"
  | .valueError m => m
  | .attributeError m => m
  | .validationError m => m
  | .normalizationError m => m
  | .routingError m => m
  | .httpError m => m
  | .timeoutError => ""
  | .typeError m => m

/-- Recognizer used by theorems: the result is a raised `ValidationError`. -/
def isValidationError {α : Type} : Except PyErr α → Bool
  | .error (.validationError _) => true
  | _ => false

/-- Recognizer used by theorems: the result is a raised `NormalizationError`. -/
def isNormalizationError {α : Type} : Except PyErr α → Bool
  | .error (.normalizationError _) => true
  | _ => false

/-! ## Message model (`app/domain/models/message.py`) -/

/-- Message type tags, from `MessageType` in `app/domain/schemas/message.py`
(the enum the normalizers use as `MessageType.TEXT` etc.). -/
inductive MessageType where
  | text | image | audio | video | document | location
  | contact | interactive | template | unknown
  deriving Repr, BEq, DecidableEq

/-- Timestamp slot of a `Message`.  The constructor's declared type is
`Optional[datetime]`, but the normalizers pass the raw payload value through
unchanged, so at runtime the slot holds either a real `datetime` (from
`datetime.utcnow()` when the payload value is absent or falsy) or the raw
payload value. -/
inductive TimestampVal where
  | dtime (iso : String)
  | raw (v : JValue)
  deriving Repr, BEq

/-- Python `self.timestamp = timestamp or datetime.utcnow()` in
`Message.__init__`: a missing or falsy timestamp argument is replaced by the
current wall-clock datetime (whose ISO rendering is the ambient `now`). -/
def mkTimestamp (t : Option JValue) (now : String) : TimestampVal :=
  match t with
  | some v => if pyTruthy v then .raw v else .dtime now
  | none => .dtime now

/-- Python `self.timestamp.isoformat()`: succeeds only on a genuine
`datetime`; a raw payload value (str/int/...) has no `isoformat` attribute
and raises `AttributeError`. -/
def TimestampVal.isoformat : TimestampVal → Except PyErr String
  | .dtime iso => .ok iso
  | .raw v =>
      .error (.attributeError
        ("'" ++ pyTypeName v ++ "' object has no attribute 'isoformat'"))

/-- Python truthiness of the timestamp slot (`if message.timestamp`):
a `datetime` is always truthy, a raw payload value by `pyTruthy`. -/
def TimestampVal.truthy : TimestampVal → Bool
  | .dtime _ => true
  | .raw v => pyTruthy v

/-- Python `message.timestamp.isoformat() if message.timestamp else None`,
the timestamp rendering shared by the three `denormalize` implementations. -/
def TimestampVal.isoOrNone (t : TimestampVal) : Except PyErr JValue :=
  if t.truthy then do
    let s ← t.isoformat
    pure (.str s)
  else pure .null

/-- Canonical message, the attribute surface of
`app/domain/models/message.py`'s `Message` as constructed and read by the
normalizers (including the `text` and `entities` keyword arguments the
normalizers pass). -/
structure Message where
  message_id : String
  channel_id : String
  tenant_id : String
  sender_id : String
  message_type : MessageType
  content : JValue
  text : Option String
  entities : List (String × List String)
  metadata : JObj
  timestamp : TimestampVal
  deriving Repr, BEq

/-! ## Shared field probing (`BaseNormalizer` subclasses) -/

/-- First-match-wins probe over an ordered list of candidate field names:
the shared `for field in [...]: if field in channel_message` idiom of the
normalizers' `_extract_*` helpers. -/
def extractFirst (fields : List String) (m : JObj) : Option JValue :=
  match fields with
  | [] => none
  | f :: rest =>
      match jlookup m f with
      | some v => some v
      | none => extractFirst rest m

/-- Sender alias priority order shared by `_extract_sender_id` in all three
normalizers. -/
def senderAliases : List String :=
  ["sender_id", "sender", "from", "user_id", "from_user"]

/-- Field priority order of `TextNormalizer._extract_text_content`. -/
def textContentFields : List String := ["text", "content", "message", "body"]

/-- Field priority order of `_extract_message_id`. -/
def messageIdFields : List String := ["id", "message_id", "msg_id"]

/-- Field priority order of `_extract_timestamp`. -/
def timestampFields : List String := ["timestamp", "time", "date", "created_at"]

/-- `_extract_sender_id(channel_message)`: first present alias wins,
converted with `str(...)`; raises `KeyError` when no alias is present. -/
def extractSenderId (m : JObj) : Except PyErr String :=
  match extractFirst senderAliases m with
  | some v => .ok (pyStr v)
  | none => .error (.keyError "Could not find sender ID in channel message")

/-- `TextNormalizer._extract_text_content(channel_message)`. -/
def extractTextContent (m : JObj) : Except PyErr String :=
  match extractFirst textContentFields m with
  | some v => .ok (pyStr v)
  | none => .error (.keyError "Could not find text content in channel message")

/-- `_extract_message_id(channel_message)`. -/
def extractMessageId (m : JObj) : Except PyErr String :=
  match extractFirst messageIdFields m with
  | some v => .ok (pyStr v)
  | none => .error (.keyError "Could not find message ID in channel message")

/-- `_extract_timestamp(channel_message)`: returns the raw value, `None` when
no candidate field is present. -/
def extractTimestamp (m : JObj) : Option JValue :=
  extractFirst timestampFields m

/-! ## Text cleaning (`TextNormalizer.clean_text`) -/

/-- Character class of the control-character removal regex
`[\x00-\x08\x0B\x0C\x0E-\x1F\x7F]` in `clean_text` (note it spares
tab `\x09`, LF `\x0A` and CR `\x0D`). -/
def isRemovedCtl (c : Char) : Bool :=
  c.toNat ≤ 0x08 || c.toNat = 0x0B || c.toNat = 0x0C ||
  (0x0E ≤ c.toNat && c.toNat ≤ 0x1F) || c.toNat = 0x7F

/-- ASCII whitespace class of the Python regex `\s` and of `str.strip()`. -/
def isPySpace (c : Char) : Bool :=
  c = ' ' || c = '\t' || c = '\n' || c = '\r' ||
  c.toNat = 0x0B || c.toNat = 0x0C

/-- Python `text.strip()`: drop leading and trailing whitespace. -/
def pyStrip (l : List Char) : List Char :=
  ((l.dropWhile isPySpace).reverse.dropWhile isPySpace).reverse

/-- Worker for `collapseWs`: the flag records whether the previous character
belonged to a whitespace run (whose single replacement space was already
emitted). -/
def collapseWsAux : Bool → List Char → List Char
  | _, [] => []
  | prevSpace, c :: rest =>
      if isPySpace c then
        if prevSpace then collapseWsAux true rest
        else ' ' :: collapseWsAux true rest
      else c :: collapseWsAux false rest

/-- Python `re.sub(r'\s+', ' ', text)`: collapse each maximal whitespace run
to a single space. -/
def collapseWs (l : List Char) : List Char :=
  collapseWsAux false l

/-- Python slice `l[:i]` with CPython semantics: a negative stop index counts
from the end (clamped at zero). -/
def pySliceTo (i : Int) (l : List Char) : List Char :=
  if 0 ≤ i then l.take i.toNat else l.take ((l.length : Int) + i).toNat

/-- Whitespace-normalized form of a text: control characters removed, then
stripped and whitespace-collapsed — the state of `text` in `clean_text` just
before the truncation check. -/
def wsNormalized (s : String) : List Char :=
  collapseWs (pyStrip (s.data.filter (fun c => !isRemovedCtl c)))

/-- `TextNormalizer.clean_text(text)`: empty text is returned unchanged;
otherwise control characters are removed, whitespace is stripped and
collapsed, and a result still longer than `max_length` is truncated to
`text[:max_length - 3] + "..."`. -/
def cleanText (maxLength : Nat) (s : String) : String :=
  if s = "" then ""
  else
    let t := wsNormalized s
    if maxLength < t.length then
      ⟨pySliceTo ((maxLength : Int) - 3) t ++ ['.', '.', '.']⟩
    else ⟨t⟩

/-! ## TextNormalizer (`app/normalizers/text.py`) -/

/-- Configuration of a `TextNormalizer` instance (its `__init__` arguments).
`entityExtractor` stands for the compiled `ENTITY_PATTERNS` regex table
together with the `re` engine backing `extract_entities`; the regex engine is
third-party, so it is a parameter of the embedding and every theorem holds
for an arbitrary extractor. -/
structure TextConfig where
  channel_id : String
  tenant_id : String
  max_length : Nat := 4096
  detect_entities : Bool := true
  sanitize_input : Bool := true
  entityExtractor : String → List (String × List String) := fun _ => []

/-- `TextNormalizer.validate(channel_message)`: base not-None check (a `JObj`
is never `None`), dict check (statically true for `JObj`), then the
required-fields check over `_get_required_fields() = \x7b'id', 'text'\x7d`. -/
def TextNormalizer.validate (m : JObj) : Except PyErr Bool :=
  let missing := ["id", "text"].filter (fun f => (jlookup m f).isNone)
  if missing.isEmpty then .ok true
  else .error (.validationError
    ("Missing required fields: " ++ String.intercalate ", " missing))

/-- Wrapper for the `except (KeyError, ValueError)` clause of
`TextNormalizer.normalize`: those two exception classes are re-raised as
`NormalizationError`; every other exception (in particular `ValidationError`)
propagates unchanged. -/
def wrapNormalize (context : String) {α : Type} :
    Except PyErr α → Except PyErr α
  | .error (.keyError m) =>
      .error (.normalizationError (context ++ (PyErr.excStr (.keyError m))))
  | .error (.valueError m) =>
      .error (.normalizationError (context ++ m))
  | r => r

/-- `TextNormalizer.normalize(channel_message)`: validate, extract sender /
text / id / timestamp by alias probing, clean the text when
`sanitize_input`, extract entities when `detect_entities`, take the base
`extract_metadata` (which returns `\x7b\x7d`; `TextNormalizer` does not override
it), and build the `Message`.  `now` is the ISO rendering of
`datetime.utcnow()` at call time. -/
def TextNormalizer.normalize (cfg : TextConfig) (now : String) (m : JObj) :
    Except PyErr Message :=
  wrapNormalize "Failed to normalize text message: " (do
    let _ ← TextNormalizer.validate m
    let sender ← extractSenderId m
    let rawText ← extractTextContent m
    let mid ← extractMessageId m
    let ts := extractTimestamp m
    let text := if cfg.sanitize_input then cleanText cfg.max_length rawText
                else rawText
    let entities := if cfg.detect_entities then cfg.entityExtractor text else []
    pure { message_id := mid
           channel_id := cfg.channel_id
           tenant_id := cfg.tenant_id
           sender_id := sender
           message_type := MessageType.text
           content := .str text
           text := none
           entities := entities
           metadata := []
           timestamp := mkTimestamp ts now })

/-- `TextNormalizer.denormalize(message)`: rejects a non-text message, then
emits the generic `\x7bid, text, sender, timestamp, channel, tenant\x7d` shape plus
a `metadata` key when the metadata dict is truthy.  The whole body sits in an
`except Exception` clause that re-raises as `NormalizationError`, so the
`ValidationError` (and the `AttributeError` from `timestamp.isoformat()` on a
raw payload timestamp) surface as `NormalizationError`. -/
def TextNormalizer.denormalize (cfg : TextConfig) (msg : Message) :
    Except PyErr JObj :=
  let body : Except PyErr JObj := do
    if msg.message_type ≠ MessageType.text then
      .error (.validationError "Cannot denormalize non-text message")
    else
      let tsv ← msg.timestamp.isoOrNone
      let base : JObj :=
        [("id", .str msg.message_id),
         ("text", msg.content),
         ("sender", .str msg.sender_id),
         ("timestamp", tsv),
         ("channel", .str cfg.channel_id),
         ("tenant", .str cfg.tenant_id)]
      pure (if pyTruthy (.obj msg.metadata) then
              jset base "metadata" (.obj msg.metadata)
            else base)
  match body with
  | .ok r => .ok r
  | .error e =>
      .error (.normalizationError
        ("Failed to denormalize text message " ++ msg.message_id ++ ": "
          ++ e.excStr))

/-! ## InteractiveNormalizer (`app/normalizers/interactive.py`) -/

/-- Interactive element types, the module-level `INTERACTIVE_TYPES` set. -/
def interactiveTypes : List String :=
  ["button", "list", "menu", "quick_reply", "carousel", "card", "action",
   "selection"]

/-- Python `v.lower()`: defined on strings only; any other value raises
`AttributeError`. -/
def pyLower (v : JValue) : Except PyErr String :=
  match v with
  | .str s => .ok s.toLower
  | v =>
      .error (.attributeError
        ("'" ++ pyTypeName v ++ "' object has no attribute 'lower'"))

/-- Python `v.get(k, default)`: defined on dicts only; any other value raises
`AttributeError`. -/
def pyGetM (v : JValue) (k : String) (d : JValue) : Except PyErr JValue :=
  match v with
  | .obj m => .ok (jget m k d)
  | v =>
      .error (.attributeError
        ("'" ++ pyTypeName v ++ "' object has no attribute 'get'"))

/-- Nested dict probe `"key" in channel_message["outer"]` used by the element
extraction branches, modelled for the dict-valued case the code expects. -/
def nestedLookup (m : JObj) (outer key : String) : Option JValue :=
  match jlookup m outer with
  | some (.obj inner) => jlookup inner key
  | _ => none

/-- `InteractiveNormalizer._determine_interactive_type(channel_message)`:
an explicit `type` field (lowercased) when it names an interactive type, then
a nested `interactive.type`, then presence of type-indicating keys, else
`"unknown"`. -/
def determineInteractiveType (m : JObj) : Except PyErr String := do
  let fromTypeField ←
    match jlookup m "type" with
    | some v => do
        let t ← pyLower v
        pure (if t ∈ interactiveTypes then some t else none)
    | none => pure none
  match fromTypeField with
  | some t => pure t
  | none =>
    let fromNested ←
      match jlookup m "interactive" with
      | some (.obj inner) =>
          match jlookup inner "type" with
          | some v => do
              let t ← pyLower v
              pure (if t ∈ interactiveTypes then some t else none)
          | none => pure none
      | _ => pure none
    match fromNested with
    | some t => pure t
    | none =>
      if (jlookup m "buttons").isSome then pure "button"
      else if (jlookup m "quick_replies").isSome ∨ (jlookup m "replies").isSome
        then pure "quick_reply"
      else if (jlookup m "items").isSome ∨ (jlookup m "list").isSome
        then pure "list"
      else if (jlookup m "carousel").isSome then pure "carousel"
      else if (jlookup m "card").isSome then pure "card"
      else pure "unknown"

/-- Canonical button element built by the `button` branch of
`_extract_interactive_elements`. -/
def buttonElement (b : JObj) : JObj :=
  [("type", .str "button"),
   ("id", jget b "id" (jget b "payload" (.str ""))),
   ("text", jget b "title" (jget b "text" (.str "Button"))),
   ("payload", jget b "payload" (jget b "value" (.str ""))),
   ("style", jget b "style" (.str "default"))]

/-- Canonical list element built by the `list` branch of
`_extract_interactive_elements`. -/
def listElement (b : JObj) : JObj :=
  [("type", .str "list_item"),
   ("id", jget b "id" (jget b "payload" (.str ""))),
   ("text", jget b "title" (jget b "text" (.str "Item"))),
   ("description", jget b "description" (.str "")),
   ("payload", jget b "payload" (jget b "value" (.str "")))]

/-- Canonical quick-reply element built by the `quick_reply` branch of
`_extract_interactive_elements`. -/
def quickReplyElement (b : JObj) : JObj :=
  [("type", .str "quick_reply"),
   ("id", jget b "id" (jget b "payload" (.str ""))),
   ("text", jget b "title" (jget b "text" (.str "Reply"))),
   ("payload", jget b "payload" (jget b "value" (.str "")))]

/-- Canonical element built by the generic branch of
`_extract_interactive_elements`: `type` / `id` / `text` plus every other
field of the item passed through. -/
def genericElement (itype : String) (b : JObj) : JObj :=
  [("type", .str itype),
   ("id", jget b "id" (.str "")),
   ("text", jget b "title" (jget b "text" (.str "")))]
  ++ b.filter (fun p => p.1 ∉ ["id", "title", "text"])

/-- Shared shape of the extraction loops: only dict items of the source list
are turned into elements, every other item is skipped. -/
def elementsFrom (build : JObj → JObj) (items : List JValue) : List JObj :=
  items.foldr
    (fun item acc =>
      match item with
      | .obj b => build b :: acc
      | _ => acc) []

/-- Generic-branch scan of `_extract_interactive_elements`: probe the
candidate fields in order and stop at the first list-valued field whose dict
items yield at least one element. -/
def genericScan (itype : String) (m : JObj) : List String → List JObj
  | [] => []
  | f :: rest =>
      match jlookup m f with
      | some (.arr items) =>
          let els := elementsFrom (genericElement itype) items
          if els.isEmpty then genericScan itype m rest else els
      | _ => genericScan itype m rest

/-- `InteractiveNormalizer._extract_interactive_elements(channel_message)`:
branch on the determined interactive type and probe the matching source
fields (top-level, nested `list.items`, or nested under `interactive`); for
unrecognized types scan `elements`/`items`/`buttons`/`replies`/`actions` and
stop at the first field yielding elements. -/
def extractInteractiveElements (m : JObj) : Except PyErr (List JObj) := do
  let itype ← determineInteractiveType m
  if itype = "unknown" then pure []
  else if itype = "button" then
    let buttons : Option JValue :=
      match jlookup m "buttons" with
      | some v => some v
      | none => nestedLookup m "interactive" "buttons"
    match buttons with
    | some v =>
        if pyTruthy v then
          match v with
          | .arr items => pure (elementsFrom buttonElement items)
          | _ => pure []
        else pure []
    | none => pure []
  else if itype = "list" then do
    let items : Except PyErr (Option JValue) :=
      match jlookup m "items" with
      | some v => .ok (some v)
      | none =>
          match jlookup m "list" with
          | some lv => do
              let r ← pyGetM lv "items" (.arr [])
              pure (some r)
          | none => .ok (nestedLookup m "interactive" "items")
    let items ← items
    match items with
    | some v =>
        if pyTruthy v then
          match v with
          | .arr items => pure (elementsFrom listElement items)
          | _ => pure []
        else pure []
    | none => pure []
  else if itype = "quick_reply" then
    let replies : Option JValue :=
      match jlookup m "quick_replies" with
      | some v => some v
      | none =>
          match jlookup m "replies" with
          | some v => some v
          | none => nestedLookup m "interactive" "replies"
    match replies with
    | some v =>
        if pyTruthy v then
          match v with
          | .arr items => pure (elementsFrom quickReplyElement items)
          | _ => pure []
        else pure []
    | none => pure []
  else
    pure (genericScan itype m
      ["elements", "items", "buttons", "replies", "actions"])

/-- Configuration of an `InteractiveNormalizer` instance. -/
structure InteractiveConfig where
  channel_id : String
  tenant_id : String
  max_elements : Nat := 10
  validate_structure : Bool := true

/-- `InteractiveNormalizer.validate(channel_message)`: required field `id`,
the determined type must not be `unknown`, and (when `validate_structure`)
there must be at least one extracted element, each carrying an `id` or
`text` key (an element count above `max_elements` only logs a warning). -/
def InteractiveNormalizer.validate (cfg : InteractiveConfig) (m : JObj) :
    Except PyErr Bool := do
  let missing := ["id"].filter (fun f => (jlookup m f).isNone)
  if !missing.isEmpty then
    .error (.validationError
      ("Missing required fields: " ++ String.intercalate ", " missing))
  else do
    let itype ← determineInteractiveType m
    if itype = "unknown" then
      .error (.validationError "Message does not contain interactive elements")
    else if cfg.validate_structure then do
      let els ← extractInteractiveElements m
      if els.isEmpty then
        .error (.validationError "No interactive elements found in message")
      else if els.any (fun e =>
          (jlookup e "id").isNone && (jlookup e "text").isNone) then
        .error (.validationError "Interactive element missing both id and text")
      else pure true
    else pure true

/-- Field priority order of
`InteractiveNormalizer._extract_text_content` (top-level fields, then fields
nested under a dict-valued `interactive`). -/
def interactiveTextContent (m : JObj) : Option String :=
  match extractFirst ["text", "content", "header", "title", "message", "body"]
      m with
  | some v => some (pyStr v)
  | none =>
      match jlookup m "interactive" with
      | some (.obj inner) =>
          match extractFirst ["text", "content", "header", "title"] inner with
          | some v => some (pyStr v)
          | none => none
      | _ => none

/-- `InteractiveNormalizer.extract_metadata(message)`: common fields, the
determined interactive type when known, then the raw `metadata` dict merged
on top. -/
def InteractiveNormalizer.extractMetadata (m : JObj) :
    Except PyErr JObj := do
  let common := ["timestamp", "message_type", "channel_id", "source"]
  let base := common.foldl
    (fun acc f =>
      match jlookup m f with
      | some v => jset acc f v
      | none => acc) []
  let itype ← determineInteractiveType m
  let base := if itype ≠ "unknown" then jset base "interactive_type" (.str itype)
              else base
  match jlookup m "metadata" with
  | some (.obj inner) => pure (jupdate base inner)
  | _ => pure base

/-- `InteractiveNormalizer.normalize(channel_message)`: validate, extract
sender / id / timestamp / text, extract the interactive elements, build the
metadata (adding `interactive_type` and `interactive_count` when elements
were found), and serialize the elements into `Message.content`
(`json.dumps` is modelled by keeping the element list structural). -/
def InteractiveNormalizer.normalize (cfg : InteractiveConfig) (now : String)
    (m : JObj) : Except PyErr Message :=
  wrapNormalize "Failed to normalize interactive message: " (do
    let _ ← InteractiveNormalizer.validate cfg m
    let sender ← extractSenderId m
    let mid ← extractMessageId m
    let ts := extractTimestamp m
    let text := interactiveTextContent m
    let els ← extractInteractiveElements m
    let meta ← InteractiveNormalizer.extractMetadata m
    let meta ←
      if !els.isEmpty then do
        let itype ← determineInteractiveType m
        pure (jset (jset meta "interactive_type" (.str itype))
          "interactive_count" (.num els.length))
      else pure meta
    pure { message_id := mid
           channel_id := cfg.channel_id
           tenant_id := cfg.tenant_id
           sender_id := sender
           message_type := MessageType.interactive
           content := if els.isEmpty then .str ""
                      else .arr (els.map JValue.obj)
           text := text
           entities := []
           metadata := meta
           timestamp := mkTimestamp ts now })

/-- `InteractiveNormalizer.build_interactive_elements(elements,
element_type)`: empty input yields `\x7b\x7d`; an unrecognized type falls back to
`button`; the `button` / `list` / `quick_reply` shapes rebuild per-element
dicts (with positional fallback ids) from the first `max_elements` elements;
any other recognized type passes the capped element list through. -/
def buildInteractiveElements (cfg : InteractiveConfig)
    (elements : List JValue) (etype : String) : Except PyErr JObj := do
  if elements.isEmpty then pure []
  else
    let etype := if etype ∈ interactiveTypes then etype else "button"
    let capped := (elements.take cfg.max_elements).enum
    if etype = "button" then do
      let btns ← capped.mapM (fun p => do
        let e := p.2
        let idv ← pyGetM e "id" (.str ("btn_" ++ toString p.1))
        let titlev ← pyGetM e "text" (.str "Button")
        let valv ← pyGetM e "value" (.str "")
        let payloadv ← pyGetM e "payload" valv
        let stylev ← pyGetM e "style" (.str "default")
        pure (JValue.obj
          [("id", idv), ("title", titlev), ("payload", payloadv),
           ("style", stylev)]))
      pure [("type", .str "button"), ("buttons", .arr btns)]
    else if etype = "list" then do
      let its ← capped.mapM (fun p => do
        let e := p.2
        let idv ← pyGetM e "id" (.str ("item_" ++ toString p.1))
        let titlev ← pyGetM e "text" (.str "Item")
        let descv ← pyGetM e "description" (.str "")
        let valv ← pyGetM e "value" (.str "")
        let payloadv ← pyGetM e "payload" valv
        pure (JValue.obj
          [("id", idv), ("title", titlev), ("description", descv),
           ("payload", payloadv)]))
      pure [("type", .str "list"), ("title", .str "Select an option"),
            ("items", .arr its)]
    else if etype = "quick_reply" then do
      let reps ← capped.mapM (fun p => do
        let e := p.2
        let idv ← pyGetM e "id" (.str ("qr_" ++ toString p.1))
        let titlev ← pyGetM e "text" (.str "Reply")
        let valv ← pyGetM e "value" (.str "")
        let payloadv ← pyGetM e "payload" valv
        pure (JValue.obj
          [("id", idv), ("title", titlev), ("payload", payloadv)]))
      pure [("type", .str "quick_reply"), ("replies", .arr reps)]
    else
      pure [("type", .str etype),
            ("elements", .arr (elements.take cfg.max_elements))]

/-- Python `json.loads(message.content)` over the image of `json.dumps`
on an element list: arrays are kept structural by the embedding, and any
non-array content stands for the `JSONDecodeError` branch, which logs and
continues with no elements. -/
def jsonLoadsElements : JValue → List JValue
  | .arr xs => xs
  | _ => []

/-- `InteractiveNormalizer.denormalize(message)`: rejects a non-interactive
message, emits the generic header fields plus `type: "interactive"`, the text
when truthy, the rebuilt `interactive` structure (element type taken from
`metadata["interactive_type"]`, defaulting to `button`), and the metadata
when truthy; every exception is re-raised as `NormalizationError`. -/
def InteractiveNormalizer.denormalize (cfg : InteractiveConfig)
    (msg : Message) : Except PyErr JObj :=
  let body : Except PyErr JObj := do
    if msg.message_type ≠ MessageType.interactive then
      .error (.validationError "Cannot denormalize non-interactive message")
    else do
      let tsv ← msg.timestamp.isoOrNone
      let base : JObj :=
        [("id", .str msg.message_id),
         ("sender", .str msg.sender_id),
         ("timestamp", tsv),
         ("channel", .str cfg.channel_id),
         ("tenant", .str cfg.tenant_id),
         ("type", .str "interactive")]
      let base :=
        match msg.text with
        | some t => if t ≠ "" then jset base "text" (.str t) else base
        | none => base
      let els := if pyTruthy msg.content then jsonLoadsElements msg.content
                 else []
      let etype :=
        match jget msg.metadata "interactive_type" (.str "button") with
        | .str s => s
        | _ => ""
      let interactive ← buildInteractiveElements cfg els etype
      let base := jset base "interactive" (.obj interactive)
      pure (if pyTruthy (.obj msg.metadata) then
              jset base "metadata" (.obj msg.metadata)
            else base)
  match body with
  | .ok r => .ok r
  | .error e =>
      .error (.normalizationError
        ("Failed to denormalize interactive message " ++ msg.message_id
          ++ ": " ++ e.excStr))

/-! ## ImageNormalizer (`app/normalizers/image.py`) -/

/-- Module-level `SUPPORTED_IMAGE_TYPES`. -/
def supportedImageTypes : List String :=
  ["image/jpeg", "image/jpg", "image/png", "image/gif", "image/webp",
   "image/tiff", "image/bmp"]

/-- Module-level `SUPPORTED_IMAGE_EXTENSIONS`. -/
def supportedImageExtensions : List String :=
  [".jpg", ".jpeg", ".png", ".gif", ".webp", ".tiff", ".bmp"]

/-- Character class of a URL scheme after its first character
(RFC 3986 / `urllib.parse`). -/
def isSchemeChar (c : Char) : Bool :=
  c.isAlphanum || c = '+' || c = '-' || c = '.'

/-- Result of `urllib.parse.urlparse`: the `(scheme, netloc, path)`
components (the only ones the image normalizer reads).  The scheme is split
off at the first `:` when it is a valid scheme token (lowercased, per the
stdlib); the netloc is present only when the remainder starts with `//`. -/
def pyUrlparse (s : String) : String × String × String :=
  let cs := s.data
  let (scheme, rest) :=
    match cs.findIdx? (· = ':') with
    | some i =>
        let pre := cs.take i
        if !pre.isEmpty && (pre.headD ' ').isAlpha
            && pre.all isSchemeChar then
          (pre.map Char.toLower, cs.drop (i + 1))
        else ([], cs)
    | none => ([], cs)
  let (netloc, after) :=
    if rest.take 2 = ['/', '/'] then
      let nl := (rest.drop 2).takeWhile (fun c => c ∉ ['/', '?', '#'])
      (nl, (rest.drop 2).dropWhile (fun c => c ∉ ['/', '?', '#']))
    else ([], rest)
  let path := after.takeWhile (fun c => c ∉ ['?', '#'])
  (⟨scheme⟩, ⟨netloc⟩, ⟨path⟩)

/-- `ImageNormalizer._is_url(text)` on a string: scheme and netloc both
non-empty. -/
def isUrlStr (s : String) : Bool :=
  if s = "" then false
  else
    let (scheme, netloc, _) := pyUrlparse s
    scheme ≠ "" && netloc ≠ ""

/-- `ImageNormalizer._is_url(text)` on an arbitrary value: a falsy or
non-string argument is not a URL (`urlparse` on a non-string raises and the
`except` clause returns `False`). -/
def isUrlV : JValue → Bool
  | .str s => isUrlStr s
  | _ => false

/-- `os.path.splitext` applied to a URL path: the extension of the last path
segment (the suffix from its last dot, when that dot is not the segment's
first character). -/
def pathExtension (path : String) : String :=
  let base := (path.data.reverse.takeWhile (· ≠ '/')).reverse
  let revBase := base.reverse
  match revBase.findIdx? (· = '.') with
  | some i =>
      if i + 1 < revBase.length then ⟨(revBase.take (i + 1)).reverse⟩
      else ""
  | none => ""

/-- Extension → MIME table of `mimetypes.guess_type` restricted to common
extensions (models the stdlib table). -/
def mimeTable : List (String × String) :=
  [(".jpg", "image/jpeg"), (".jpeg", "image/jpeg"), (".png", "image/png"),
   (".gif", "image/gif"), (".webp", "image/webp"), (".tiff", "image/tiff"),
   (".tif", "image/tiff"), (".bmp", "image/bmp"), (".svg", "image/svg+xml"),
   (".txt", "text/plain"), (".html", "text/html"), (".pdf", "application/pdf")]

/-- `ImageNormalizer._get_mime_type_from_url(url)`: extension of the parsed
URL path, lowercased, looked up in the `mimetypes` table. -/
def mimeTypeFromUrl (url : String) : Option String :=
  if url = "" then none
  else
    let (_, _, path) := pyUrlparse url
    let ext := (pathExtension path).toLower
    if ext = "" then none
    else (mimeTable.lookup ext)

/-- Configuration of an `ImageNormalizer` instance. -/
structure ImageConfig where
  channel_id : String
  tenant_id : String
  max_size_kb : Int := 10240
  allow_remote_urls : Bool := true
  verify_mime_type : Bool := true

/-- `ImageNormalizer.handle_url(url)`: a non-URL value passes through as a
valid opaque reference; a URL is rejected when remote URLs are disallowed and
its scheme is http/https, when its scheme is not http/https/file, or (under
`verify_mime_type`) when its extension maps to an unsupported MIME type or is
an unsupported extension. -/
def ImageNormalizer.handleUrl (cfg : ImageConfig) (url : JValue) :
    Except PyErr JObj := do
  let result : JObj := [("url", url), ("is_valid", .bool false)]
  if !isUrlV url then
    pure (jset (jset result "is_url" (.bool false)) "is_valid" (.bool true))
  else
    match url with
    | .str u => do
        let result := jset result "is_url" (.bool true)
        let (scheme, _, _) := pyUrlparse u
        if !cfg.allow_remote_urls && (scheme = "http" || scheme = "https") then
          .error (.validationError "Remote image URLs are not allowed")
        else if !(u.startsWith "http://" || u.startsWith "https://"
            || u.startsWith "file://") then
          .error (.validationError ("Invalid URL scheme: " ++ u))
        else do
          let result ←
            if cfg.verify_mime_type then
              match mimeTypeFromUrl u with
              | some mt =>
                  if mt ∉ supportedImageTypes then
                    .error (.validationError
                      ("Unsupported image MIME type: " ++ mt))
                  else pure (jset result "mime_type" (.str mt))
              | none =>
                  let (_, _, path) := pyUrlparse u
                  let ext := (pathExtension path).toLower
                  if ext ≠ "" && ext ∉ supportedImageExtensions then
                    .error (.validationError
                      ("Unsupported image extension: " ++ ext))
                  else pure result
            else pure result
          pure (jset result "is_valid" (.bool true))
    | _ => pure result

/-- `ImageNormalizer._extract_image_data(channel_message)`: probe URL-style
fields (a dict-valued field contributes its `url` entry, a string-valued one
itself; probing stops at the first present field either way), then
opaque-reference fields, dimensions (nested `dimensions` dict or flat
fields), MIME type and size; raises `KeyError` when nothing was found. -/
def extractImageData (m : JObj) : Except PyErr JObj := do
  let d : JObj := []
  let d :=
    match extractFirst ["image_url", "url", "media_url", "attachment"] m with
    | some (.obj inner) =>
        match jlookup inner "url" with
        | some uv => jset d "url" uv
        | none => d
    | some (.str s) => jset d "url" (.str s)
    | some _ => d
    | none => d
  let d :=
    match extractFirst ["file_id", "media_id", "attachment_id"] m with
    | some v => jset d "file_id" v
    | none => d
  let d :=
    match jlookup m "dimensions" with
    | some (.obj dims) =>
        let d := match jlookup dims "width" with
                 | some w => jset d "width" w
                 | none => d
        match jlookup dims "height" with
        | some h => jset d "height" h
        | none => d
    | some _ => d
    | none =>
        let d := match extractFirst ["width", "image_width", "w"] m with
                 | some w => jset d "width" w
                 | none => d
        match extractFirst ["height", "image_height", "h"] m with
        | some h => jset d "height" h
        | none => d
  let d :=
    match extractFirst ["mime_type", "content_type", "media_type"] m with
    | some v => jset d "mime_type" v
    | none => d
  let d :=
    match extractFirst ["size", "file_size", "media_size"] m with
    | some v => jset d "size" v
    | none => d
  if d.isEmpty then
    .error (.keyError "Could not extract image data from message")
  else pure d

/-- `ImageNormalizer.validate(channel_message)`: required field `id`, image
data must extract (a `KeyError` there is re-raised as
`ValidationError("Invalid image data: ...")`), must contain a URL, file ID or
binary data, and a present URL must pass `handle_url`. -/
def ImageNormalizer.validate (cfg : ImageConfig) (m : JObj) :
    Except PyErr Bool := do
  let missing := ["id"].filter (fun f => (jlookup m f).isNone)
  if !missing.isEmpty then
    .error (.validationError
      ("Missing required fields: " ++ String.intercalate ", " missing))
  else do
    let dataRes := extractImageData m
    match dataRes with
    | .error (.keyError e) =>
        .error (.validationError
          ("Invalid image data: " ++ PyErr.excStr (.keyError e)))
    | .error e => .error e
    | .ok imageData => do
        if !(["url", "file_id", "data"].any
            (fun k => (jlookup imageData k).isSome)) then
          .error (.validationError
            "Image message must contain a URL, file ID, or binary data")
        else do
          match jlookup imageData "url" with
          | some u =>
              let _ ← ImageNormalizer.handleUrl cfg u
              pure true
          | none => pure true

/-- Python `size > limit` in `process_metadata`: an integer compares, any
other payload type raises `TypeError`. -/
def pyGtInt (v : JValue) (n : Int) : Except PyErr Bool :=
  match v with
  | .num k => .ok (decide (n < k))
  | .bool b => .ok (decide (n < (if b then (1 : Int) else 0)))
  | v =>
      .error (.typeError
        ("'>' not supported between instances of '" ++ pyTypeName v
          ++ "' and 'int'"))

/-- `ImageNormalizer.extract_metadata(message)`: common fields plus the raw
`metadata` dict merged on top. -/
def ImageNormalizer.extractMetadata (m : JObj) : JObj :=
  let common := ["timestamp", "message_type", "channel_id", "source"]
  let base := common.foldl
    (fun acc f =>
      match jlookup m f with
      | some v => jset acc f v
      | none => acc) []
  match jlookup m "metadata" with
  | some (.obj inner) => jupdate base inner
  | _ => base

/-- `ImageNormalizer.process_metadata(channel_message, image_data)`: the
extracted metadata plus MIME type (explicit or inferred from the URL),
dimensions, size, and the advisory `exceeds_max_size` flag when the size
exceeds `max_size_kb * 1024` (annotates, does not reject). -/
def ImageNormalizer.processMetadata (cfg : ImageConfig) (m : JObj)
    (imageData : JObj) : Except PyErr JObj := do
  let meta := ImageNormalizer.extractMetadata m
  let meta :=
    match jlookup imageData "mime_type" with
    | some v => jset meta "mime_type" v
    | none =>
        match jlookup imageData "url" with
        | some (.str u) =>
            match mimeTypeFromUrl u with
            | some mt => jset meta "mime_type" (.str mt)
            | none => meta
        | _ => meta
  let meta :=
    match jlookup imageData "width", jlookup imageData "height" with
    | some w, some h => jset (jset meta "width" w) "height" h
    | _, _ => meta
  match jlookup imageData "size" with
  | some sz =>
      let meta := jset meta "size" sz
      if cfg.max_size_kb > 0 then do
        let exceeds ← pyGtInt sz (cfg.max_size_kb * 1024)
        pure (if exceeds then jset meta "exceeds_max_size" (.bool true)
              else meta)
      else pure meta
  | none => pure meta

/-- `ImageNormalizer.normalize(channel_message)`: validate (which performs
URL validation), extract sender / id / timestamp and the image data, build
the metadata, probe the caption fields, and build the `Message` whose content
is the URL when truthy and the file ID otherwise (Python `or`). -/
def ImageNormalizer.normalize (cfg : ImageConfig) (now : String) (m : JObj) :
    Except PyErr Message :=
  wrapNormalize "Failed to normalize image message: " (do
    let _ ← ImageNormalizer.validate cfg m
    let sender ← extractSenderId m
    let mid ← extractMessageId m
    let ts := extractTimestamp m
    let imageData ← extractImageData m
    let meta ← ImageNormalizer.processMetadata cfg m imageData
    let caption :=
      match extractFirst ["caption", "text", "description", "alt_text"] m with
      | some v => some (pyStr v)
      | none => none
    let urlv := jget imageData "url" .null
    let content := if pyTruthy urlv then urlv
                   else jget imageData "file_id" .null
    pure { message_id := mid
           channel_id := cfg.channel_id
           tenant_id := cfg.tenant_id
           sender_id := sender
           message_type := MessageType.image
           content := content
           text := caption
           entities := []
           metadata := meta
           timestamp := mkTimestamp ts now })

/-! ## Webhook signature verification (`app/api/routers/webhooks.py`) -/

/-- Python `s.startswith(pre)` (character-level prefix test). -/
def pyStartsWith (s pre : String) : Bool :=
  pre.data.isPrefixOf s.data

/-- Python slice `s[n:]` for a non-negative index. -/
def pyDropStr (n : Nat) (s : String) : String :=
  ⟨s.data.drop n⟩

/-- Secret argument of `verify_signature`: either a Python string or some
non-string object (e.g. `None`), on which `.encode()` raises
`AttributeError`. -/
inductive SecretVal where
  | str (s : String)
  | nonStr
  deriving Repr, BEq, DecidableEq

/-- `verify_signature(request, provided_signature, webhook_secret)`.
`hmacSha1Hex` is the `hmac.new(secret.encode(), raw_body,
hashlib.sha1).hexdigest()` oracle (stdlib crypto, a parameter of the
embedding); `rawBody` is `request.scope["body"]`, absent (`none`) when the
key is missing from the request scope.  The whole body sits in a
`try/except` returning `False`, so a missing body (`KeyError`) or a
non-string secret (`AttributeError` on `.encode()`) yields `False`.  The
provided signature is stripped of a leading `sha1=` prefix and compared with
`hmac.compare_digest` (functionally, string equality). -/
def verifySignature (hmacSha1Hex : String → List Nat → String)
    (rawBody : Option (List Nat)) (providedSignature : String)
    (webhookSecret : SecretVal) : Bool :=
  match rawBody with
  | none => false
  | some body =>
      match webhookSecret with
      | .nonStr => false
      | .str secret =>
          let expected := hmacSha1Hex secret body
          let provided :=
            if pyStartsWith providedSignature "sha1=" then
              pyDropStr 5 providedSignature
            else providedSignature
          expected == provided

/-! ## Chat router (`app/routers/chat_router.py`, `app/routers/router_base.py`) -/

/-- Attribute surface of the message object as accessed by `RouterBase` /
`ChatRouter` (`message.id`, `message.content`, `message.attachments`, ...).
`timestamp` is the optional `datetime` the router renders with
`isoformat()`. -/
structure RMessage where
  id : String
  conversation_id : Option String
  tenant_id : String
  sender_id : String
  content : JValue
  timestamp : Option String
  channel_id : String
  message_type : String
  metadata : JObj
  attachments : Option JValue
  deriving Repr, BEq

/-- Configuration of a `ChatRouter` (its `config` dict): note that
`max_retries` and `retry_delay` are read into attributes but the
`@retry_async` decorator on `route_to_chat` is applied with the literal
arguments `max_retries=3, delay=1.0, backoff=2.0`. -/
structure RouterConfig where
  chat_service_url : String := "http://chat-service:8000"
  timeout : Nat := 30
  max_retries : Nat := 3
  retry_delay : Nat := 1

/-- Outcome of one `httpx` POST to the downstream Chat Service: an
`asyncio`-level timeout, an `httpx.HTTPError`-class transport failure
(connection errors and `httpx` timeouts), or an HTTP response with a status
code and JSON body. -/
inductive HttpOutcome where
  | timeout
  | transportError (msg : String)
  | response (status : Nat) (body : JObj)

/-- Modelled from the spec: `app/utils/retry.py` is absent from `src/`.
Spec §4.8 — "POSTs with a bounded retry policy (retry count, fixed or
exponential backoff, retryable on connection/timeout errors only)".
`retryAsync maxRetries retryable f` runs attempt `i` as `f i`; on an error
satisfying `retryable` with attempts remaining it retries, otherwise the
error propagates.  `maxRetries` bounds the total number of attempts. -/
def retryAsync {α : Type} (maxRetries : Nat) (retryable : PyErr → Bool)
    (f : Nat → Except PyErr α) : Except PyErr α :=
  go maxRetries 0
where
  /-- Attempt loop: `remaining` attempts left after this one, `i` the index
  of the current attempt. -/
  go : Nat → Nat → Except PyErr α
  | 0, i => f i
  | remaining + 1, i =>
      match f i with
      | .ok a => .ok a
      | .error e =>
          if retryable e ∧ remaining ≥ 1 then go remaining (i + 1)
          else .error e

/-- Retryable-exception predicate of the `@retry_async(...,
retryable_exceptions=(httpx.HTTPError, asyncio.TimeoutError))` decorator
instance on `route_to_chat`. -/
def routerRetryable : PyErr → Bool
  | .httpError _ => true
  | .timeoutError => true
  | _ => false

/-- Body of one `route_to_chat` attempt (the code inside the decorated
function): POST the request, `raise_for_status`, return the JSON body;
`httpx.HTTPError` and `asyncio.TimeoutError` are caught and re-raised as
`RoutingError`, and so is any other exception. -/
def routeToChatAttempt (outcome : HttpOutcome) : Except PyErr JObj :=
  match outcome with
  | .timeout =>
      .error (.routingError "Timeout routing message to Chat Service")
  | .transportError msg =>
      .error (.routingError
        ("Failed to route message to Chat Service: " ++ msg))
  | .response status body =>
      if 400 ≤ status then
        .error (.routingError
          ("Failed to route message to Chat Service: HTTP status error "
            ++ toString status))
      else .ok body

/-- `ChatRouter.route_to_chat(request_data)` as decorated: `retry_async`
around the attempt body, the downstream modelled as the sequence of outcomes
of successive POST attempts. -/
def routeToChat (downstream : Nat → HttpOutcome) (requestData : JObj) :
    Except PyErr JObj :=
  let _ := requestData
  retryAsync 3 routerRetryable (fun i => routeToChatAttempt (downstream i))

/-- `RouterBase.validate_message(message)`: the message must have an id and
content or attachments (`if not message` can only fire on `None`, which the
`Message`-typed surface excludes). -/
def validateMessage (msg : RMessage) : Except PyErr Bool :=
  if msg.id = "" then .error (.validationError "Message must have an ID")
  else if !pyTruthy msg.content
      && !(match msg.attachments with
           | some a => pyTruthy a
           | none => false) then
    .error (.validationError "Message must have content or attachments")
  else .ok true

/-- `ChatRouter.build_request(message)`: the provider-agnostic request body,
with the attachments added when truthy and a fresh correlation id injected
into the metadata when absent (`uuid` models `uuid4()`, `now` the
`datetime.now()` fallback). -/
def buildRequest (uuid now : String) (msg : RMessage) : JObj :=
  let base : JObj :=
    [("message_id", .str msg.id),
     ("conversation_id",
       match msg.conversation_id with
       | some c => .str c
       | none => .null),
     ("tenant_id", .str msg.tenant_id),
     ("user_id", .str msg.sender_id),
     ("content", msg.content),
     ("timestamp", .str (msg.timestamp.getD now)),
     ("channel_id", .str msg.channel_id),
     ("message_type", .str msg.message_type),
     ("metadata", .obj msg.metadata)]
  let base :=
    match msg.attachments with
    | some a => if pyTruthy a then jset base "attachments" a else base
    | none => base
  let meta :=
    if (jlookup msg.metadata "correlation_id").isSome then msg.metadata
    else jset msg.metadata "correlation_id" (.str uuid)
  jset base "metadata" (.obj meta)

/-- `ChatRouter.handle_response(response, original_message)`: a response
whose `success` field is falsy is returned unchanged; otherwise the routing
provenance block is added. -/
def handleResponse (now : String) (response : JObj) (msg : RMessage) : JObj :=
  if !pyTruthy (jget response "success" (.bool true)) then response
  else
    jset response "routing"
      (.obj [("original_message_id", .str msg.id),
             ("routed_at", .str now),
             ("router", .str "chat_router")])

/-- `RouterBase.handle_errors(error, message)`: the structured error
envelope. -/
def handleErrors (e : PyErr) (msg : RMessage) : JObj :=
  [("success", .bool false),
   ("error", .obj [("type", .str e.excName), ("message", .str e.excStr)]),
   ("message_id", .str msg.id)]

/-- Happy path of `ChatRouter.route(message)`: validate, build the request,
send with `route_to_chat`, process the response. -/
def routePipeline (uuid now : String) (downstream : Nat → HttpOutcome)
    (msg : RMessage) : Except PyErr JObj := do
  let _ ← validateMessage msg
  let req := buildRequest uuid now msg
  let resp ← routeToChat downstream req
  pure (handleResponse now resp msg)

/-- `ChatRouter.route(message)`: the pipeline inside `try`, with every
exception converted to the error envelope by `handle_errors`. -/
def ChatRouter.route (uuid now : String) (downstream : Nat → HttpOutcome)
    (msg : RMessage) : JObj :=
  match routePipeline uuid now downstream msg with
  | .ok r => r
  | .error e => handleErrors e msg

/-! ## Concrete instances used by the theorems -/

/-- Text normalizer for channel `c`, tenant `t`, default tunables, with a
given entity extractor. -/
def textCfg (extr : String → List (String × List String)) : TextConfig :=
  { channel_id := "c", tenant_id := "t", entityExtractor := extr }

/-- Text normalizer with the trivial entity extractor. -/
def textCfg0 : TextConfig := textCfg (fun _ => [])

/-- Interactive normalizer for channel `c`, tenant `t`, default tunables. -/
def interactiveCfg : InteractiveConfig := { channel_id := "c", tenant_id := "t" }

/-- Image normalizer with `allow_remote_urls := false` (spec scenario B). -/
def imageCfgNoRemote : ImageConfig :=
  { channel_id := "c", tenant_id := "t", allow_remote_urls := false }

/-- Text payload carrying a provider timestamp, accepted by
`TextNormalizer.normalize`. -/
def tsTextPayload : JObj :=
  [("id", .str "m1"), ("text", .str "hi"), ("sender", .str "u1"),
   ("timestamp", .str "2024-01-01T00:00:00")]

/-- Message produced by normalizing `tsTextPayload` (entities depend on the
ambient extractor). -/
def tsTextMessage (extr : String → List (String × List String)) : Message :=
  { message_id := "m1"
    channel_id := "c"
    tenant_id := "t"
    sender_id := "u1"
    message_type := MessageType.text
    content := .str "hi"
    text := none
    entities := extr "hi"
    metadata := []
    timestamp := .raw (.str "2024-01-01T00:00:00") }

/-- Interactive payload of spec scenario C: two buttons plus the required
`id` and a sender alias. -/
def buttonsPayload : JObj :=
  [("id", .str "m3"), ("sender", .str "u1"),
   ("buttons", .arr
     [.obj [("id", .str "b1"), ("title", .str "Yes")],
      .obj [("id", .str "b2"), ("title", .str "No")]])]

/-- Message produced by normalizing `buttonsPayload` at wall-clock `now`. -/
def buttonsMessage (now : String) : Message :=
  { message_id := "m3"
    channel_id := "c"
    tenant_id := "t"
    sender_id := "u1"
    message_type := MessageType.interactive
    content := .arr
      [.obj [("type", .str "button"), ("id", .str "b1"),
             ("text", .str "Yes"), ("payload", .str ""),
             ("style", .str "default")],
       .obj [("type", .str "button"), ("id", .str "b2"),
             ("text", .str "No"), ("payload", .str ""),
             ("style", .str "default")]]
    text := none
    entities := []
    metadata := [("interactive_type", .str "button"),
                 ("interactive_count", .num 2)]
    timestamp := .dtime now }

/-- Channel-shaped `interactive` structure rebuilt from `buttonsMessage`. -/
def buttonsRebuilt : JObj :=
  [("type", .str "button"),
   ("buttons", .arr
     [.obj [("id", .str "b1"), ("title", .str "Yes"),
            ("payload", .str ""), ("style", .str "default")],
      .obj [("id", .str "b2"), ("title", .str "No"),
            ("payload", .str ""), ("style", .str "default")]])]

/-- Raw image payload of spec scenario B. -/
def remoteImagePayload : JObj :=
  [("id", .str "m2"), ("image_url", .str "https://x/y.png"),
   ("sender", .str "u2")]

/-- Router-level message used by the routing theorems. -/
def routeMsg : RMessage :=
  { id := "m1", conversation_id := none, tenant_id := "t",
    sender_id := "u", content := .str "hi", timestamp := none,
    channel_id := "c", message_type := "text", metadata := [],
    attachments := none }

/-- Downstream behaviour of the spec's router retry scenario: the POST times
out on the first two attempts and succeeds on the third. -/
def timeoutTwiceDownstream : Nat → HttpOutcome := fun i =>
  if i < 2 then .timeout else .response 200 [("success", .bool true)]

/-- Toy instantiation of the HMAC-SHA1 hex oracle, used only to witness the
signature theorems at concrete inputs. -/
def hmacToy (secret : String) (body : List Nat) : String :=
  secret ++ "/" ++ toString body

/-! ## Theorems -/

/-- C4: `verify_signature` computes HMAC-SHA1 of the raw body with the
webhook secret, strips a leading `sha1=` prefix, and compares the digests:
a signature correctly computed over the body passes for every body and
secret, and a tampered body whose HMAC differs from that of the original
body fails verification when the signature is left unchanged. -/
theorem C4_signature_verification :
    (∀ (mac : String → List Nat → String) (body : List Nat) (secret : String),
      verifySignature mac (some body) ("sha1=" ++ mac secret body)
        (.str secret) = true)
    ∧ (∀ (mac : String → List Nat → String) (body body' : List Nat)
        (secret : String), mac secret body' ≠ mac secret body →
      verifySignature mac (some body') ("sha1=" ++ mac secret body)
        (.str secret) = false) := by
  have hpre : ∀ s : String, pyStartsWith ("sha1=" ++ s) "sha1=" = true := by
    intro s
    simp only [pyStartsWith, String.data_append]
    rw [List.isPrefixOf_iff_prefix]
    exact List.prefix_append _ _
  have hdrop : ∀ s : String, pyDropStr 5 ("sha1=" ++ s) = s := by
    intro s
    simp only [pyDropStr, String.data_append]
    have h5 : "sha1=".data.length = 5 := by decide
    rw [← h5, List.drop_left]
  constructor
  · intro mac body secret
    simp [verifySignature, hpre, hdrop]
  · intro mac body body' secret hne
    simp [verifySignature, hpre, hdrop]
    exact hne

/-- C4 witness: the theorem applied at a concrete oracle, body and secret:
the correctly signed payload passes and the tampered body fails. -/
theorem C4_signature_verification_witness :
    verifySignature hmacToy (some [1, 2, 3])
      ("sha1=" ++ hmacToy "sec" [1, 2, 3]) (.str "sec") = true
    ∧ verifySignature hmacToy (some [1, 2])
      ("sha1=" ++ hmacToy "sec" [1, 2, 3]) (.str "sec") = false := by
  refine ⟨C4_signature_verification.1 hmacToy [1, 2, 3] "sec", ?_⟩
  exact C4_signature_verification.2 hmacToy [1, 2, 3] [1, 2] "sec" (by decide)

/-- C10: `verify_signature` is total and fail-closed: the embedding returns
a `Bool` on every input, and the internal-error paths — raw body missing
from the request scope (`KeyError`) and a non-string webhook secret
(`AttributeError` on `.encode()`) — both yield `false` rather than
escaping. -/
theorem C10_verify_signature_fail_closed :
    ∀ (mac : String → List Nat → String) (sig : String) (secret : SecretVal)
      (rawBody : Option (List Nat)),
      verifySignature mac none sig secret = false
      ∧ verifySignature mac rawBody sig SecretVal.nonStr = false := by
  intro mac sig secret rawBody
  refine ⟨rfl, ?_⟩
  cases rawBody <;> rfl

/-- C3: whenever any step of the routing pipeline fails (validation failure,
downstream HTTP error, or retry exhaustion), `ChatRouter.route` does not
propagate the exception: it returns the structured error envelope
`\x7bsuccess: false, error: \x7btype, message\x7d, message_id\x7d`. -/
theorem C3_route_returns_error_envelope :
    ∀ (uuid now : String) (downstream : Nat → HttpOutcome) (msg : RMessage)
      (e : PyErr),
      routePipeline uuid now downstream msg = .error e →
      ChatRouter.route uuid now downstream msg =
        [("success", .bool false),
         ("error", .obj [("type", .str e.excName),
                         ("message", .str e.excStr)]),
         ("message_id", .str msg.id)] := by
  intro uuid now downstream msg e h
  simp [ChatRouter.route, h, handleErrors]

/-- C3 witness: the theorem applied to a message with an empty id, whose
validation failure is converted to the envelope. -/
theorem C3_route_returns_error_envelope_witness :
    ChatRouter.route "U" "N" (fun _ => HttpOutcome.timeout)
      { routeMsg with id := "" } =
      [("success", .bool false),
       ("error", .obj [("type", .str "ValidationError"),
                       ("message", .str "Message must have an ID")]),
       ("message_id", .str "")] :=
  C3_route_returns_error_envelope "U" "N" (fun _ => HttpOutcome.timeout)
    { routeMsg with id := "" } (.validationError "Message must have an ID") rfl

/-- C2: the spec's retry scenario fails on the code.  `route_to_chat`
catches every exception of its body and re-raises `RoutingError`, which is
not among the decorator's `retryable_exceptions`, so the result of the
decorated call is always the result of the first attempt — no retry ever
happens.  In particular, with a downstream that times out twice and would
succeed on the third attempt, `route` returns the error envelope built from
the first timeout instead of succeeding. -/
theorem C2_retry_never_fires :
    (∀ (downstream : Nat → HttpOutcome) (req : JObj),
      routeToChat downstream req = routeToChatAttempt (downstream 0))
    ∧ (∀ uuid now : String,
      ChatRouter.route uuid now timeoutTwiceDownstream routeMsg =
        [("success", .bool false),
         ("error", .obj
           [("type", .str "RoutingError"),
            ("message", .str "Timeout routing message to Chat Service")]),
         ("message_id", .str "m1")]) := by
  constructor
  · intro downstream req
    cases h : downstream 0 with
    | timeout =>
        simp [routeToChat, retryAsync, retryAsync.go, routeToChatAttempt, h,
          routerRetryable]
    | transportError msg =>
        simp [routeToChat, retryAsync, retryAsync.go, routeToChatAttempt, h,
          routerRetryable]
    | response status body =>
        by_cases hs : 400 ≤ status
        · simp [routeToChat, retryAsync, retryAsync.go, routeToChatAttempt, h,
            hs, routerRetryable]
        · simp [routeToChat, retryAsync, retryAsync.go, routeToChatAttempt, h,
            hs, routerRetryable]
  · intro uuid now
    rfl

/-- C5 counterexample: the empty payload contains none of the sender alias
fields, yet `TextNormalizer.normalize` raises `ValidationError` (from the
required-fields check, which runs before sender extraction), not
`NormalizationError`. -/
theorem C5_missing_sender_counterexample :
    isValidationError (TextNormalizer.normalize textCfg0 "NOW" []) = true
    ∧ isNormalizationError (TextNormalizer.normalize textCfg0 "NOW" [])
      = false := ⟨rfl, rfl⟩

/-- C5 (amended): for every payload passing structural validation (the
required `id` and `text` fields present) that contains none of the sender
alias fields, `TextNormalizer.normalize` raises `NormalizationError`
(wrapping the sender-extraction `KeyError`); in particular it never returns
a `Message`. -/
theorem C5_missing_sender_raises :
    ∀ (cfg : TextConfig) (now : String) (m : JObj),
      (jlookup m "id").isSome = true →
      (jlookup m "text").isSome = true →
      (∀ a ∈ senderAliases, (jlookup m a).isNone = true) →
      TextNormalizer.normalize cfg now m =
        .error (.normalizationError
          "Failed to normalize text message: 'Could not find sender ID in channel message'") := by
  intro cfg now m hid htext haliases
  have h0 := Option.isNone_iff_eq_none.mp (haliases "sender_id" (by simp [senderAliases]))
  have h1 := Option.isNone_iff_eq_none.mp (haliases "sender" (by simp [senderAliases]))
  have h2 := Option.isNone_iff_eq_none.mp (haliases "from" (by simp [senderAliases]))
  have h3 := Option.isNone_iff_eq_none.mp (haliases "user_id" (by simp [senderAliases]))
  have h4 := Option.isNone_iff_eq_none.mp (haliases "from_user" (by simp [senderAliases]))
  obtain ⟨v1, hv1⟩ := Option.isSome_iff_exists.mp hid
  obtain ⟨v2, hv2⟩ := Option.isSome_iff_exists.mp htext
  simp [TextNormalizer.normalize, TextNormalizer.validate, wrapNormalize,
    extractSenderId, extractFirst, senderAliases, hv1, hv2, h0, h1, h2, h3,
    h4, PyErr.excStr, Bind.bind, Except.bind]

/-- C5 witness: the amended theorem applied to a payload with `id` and
`text` but no sender alias. -/
theorem C5_missing_sender_raises_witness :
    TextNormalizer.normalize textCfg0 "NOW"
      [("id", .str "m"), ("text", .str "hi")] =
      .error (.normalizationError
        "Failed to normalize text message: 'Could not find sender ID in channel message'") :=
  C5_missing_sender_raises textCfg0 "NOW"
    [("id", .str "m"), ("text", .str "hi")] (by decide) (by decide)
    (by decide)

/-- C6: sender extraction is first-match-wins over the fixed alias priority
order: whenever every alias before position `i` is absent and the alias at
position `i` is present with value `v`, `_extract_sender_id` returns
`str(v)`; with both `sender_id` and `sender` present, the `sender_id` value
wins (the `i = 0` instance). -/
theorem C6_alias_priority :
    ∀ (m : JObj) (i : Nat) (hi : i < senderAliases.length) (v : JValue),
      (∀ (j : Nat) (hj : j < i),
        (jlookup m (senderAliases.get ⟨j, Nat.lt_trans hj hi⟩)).isNone
          = true) →
      jlookup m (senderAliases.get ⟨i, hi⟩) = some v →
      extractSenderId m = .ok (pyStr v) := by
  intro m i hi v hprev hcur
  have hi5 : i < 5 := by simpa [senderAliases] using hi
  interval_cases i
  · simp only [senderAliases, List.get] at hcur
    simp [extractSenderId, extractFirst, senderAliases, hcur]
  · have h0 := Option.isNone_iff_eq_none.mp (hprev 0 (by omega))
    simp only [senderAliases, List.get] at hcur h0
    simp [extractSenderId, extractFirst, senderAliases, hcur, h0]
  · have h0 := Option.isNone_iff_eq_none.mp (hprev 0 (by omega))
    have h1 := Option.isNone_iff_eq_none.mp (hprev 1 (by omega))
    simp only [senderAliases, List.get] at hcur h0 h1
    simp [extractSenderId, extractFirst, senderAliases, hcur, h0, h1]
  · have h0 := Option.isNone_iff_eq_none.mp (hprev 0 (by omega))
    have h1 := Option.isNone_iff_eq_none.mp (hprev 1 (by omega))
    have h2 := Option.isNone_iff_eq_none.mp (hprev 2 (by omega))
    simp only [senderAliases, List.get] at hcur h0 h1 h2
    simp [extractSenderId, extractFirst, senderAliases, hcur, h0, h1, h2]
  · have h0 := Option.isNone_iff_eq_none.mp (hprev 0 (by omega))
    have h1 := Option.isNone_iff_eq_none.mp (hprev 1 (by omega))
    have h2 := Option.isNone_iff_eq_none.mp (hprev 2 (by omega))
    have h3 := Option.isNone_iff_eq_none.mp (hprev 3 (by omega))
    simp only [senderAliases, List.get] at hcur h0 h1 h2 h3
    simp [extractSenderId, extractFirst, senderAliases, hcur, h0, h1, h2, h3]

/-- C6 witness: with both `sender_id` and `sender` present and different,
the `sender_id` value is picked. -/
theorem C6_alias_priority_witness :
    extractSenderId [("sender_id", .str "alice"), ("sender", .str "bob")]
      = .ok "alice" :=
  C6_alias_priority [("sender_id", .str "alice"), ("sender", .str "bob")] 0
    (by decide) (.str "alice") (fun j hj => absurd hj (Nat.not_lt_zero j))
    rfl

/-- C7 counterexample: a text of 11 spaces is longer than a configured
`max_length` of 10, but `clean_text` collapses it to the empty string, so
the result length is 0, not `max_length`, and it does not end in `"..."` —
the truncation check runs on the whitespace-normalized text, not on the
input. -/
theorem C7_truncation_counterexample :
    (10 : Nat) < (String.mk (List.replicate 11 ' ')).length
    ∧ cleanText 10 (String.mk (List.replicate 11 ' ')) = ""
    ∧ (cleanText 10 (String.mk (List.replicate 11 ' '))).length = 0 := by
  refine ⟨by decide, by decide, by decide⟩

/-- C7 (amended): for `max_length ≥ 3` and any text whose
whitespace-normalized form (the state of the text at the truncation check)
is longer than `max_length`, the result of `clean_text` has length exactly
`max_length` and ends with the three-character suffix `"..."`. -/
theorem C7_truncation_invariant :
    ∀ (maxLen : Nat) (s : String), 3 ≤ maxLen →
      maxLen < (wsNormalized s).length →
      (cleanText maxLen s).length = maxLen
      ∧ ∃ pre, (cleanText maxLen s).data = pre ++ ['.', '.', '.'] := by
  intro maxLen s h3 hlen
  have hs : ¬s = "" := by
    intro h
    rw [h] at hlen
    have : wsNormalized "" = [] := rfl
    rw [this] at hlen
    simp at hlen
  have hnn : (0 : Int) ≤ (maxLen : Int) - 3 := by omega
  have htn : ((maxLen : Int) - 3).toNat = maxLen - 3 := by omega
  have hres : cleanText maxLen s =
      ⟨(wsNormalized s).take (maxLen - 3) ++ ['.', '.', '.']⟩ := by
    rw [cleanText, if_neg hs]
    simp only [hlen, if_pos, pySliceTo, if_pos hnn, htn]
  rw [hres]
  constructor
  · show ((wsNormalized s).take (maxLen - 3) ++ ['.', '.', '.']).length
      = maxLen
    simp only [List.length_append, List.length_take, List.length_cons,
      List.length_nil]
    omega
  · exact ⟨(wsNormalized s).take (maxLen - 3), rfl⟩

/-- C7 witness: the amended theorem applied to a 15-character text with
`max_length = 10`. -/
theorem C7_truncation_invariant_witness :
    (cleanText 10 "aaaaaaaaaaaaaaa").length = 10
    ∧ ∃ pre, (cleanText 10 "aaaaaaaaaaaaaaa").data
      = pre ++ ['.', '.', '.'] :=
  C7_truncation_invariant 10 "aaaaaaaaaaaaaaa" (by decide) (by decide)

/-- C1: the round-trip fails on the code.  `tsTextPayload` is a raw text
payload accepted by `TextNormalizer.normalize` (with the expected
message type, sender and content), but its provider timestamp string is
stored unchanged in the `Optional[datetime]`-typed `Message.timestamp`
slot, so `denormalize` — which calls `message.timestamp.isoformat()` —
raises `AttributeError`, re-raised as `NormalizationError`:
`denormalize(normalize(x))` fails outright for every payload carrying a
truthy timestamp field. -/
theorem C1_roundtrip_timestamp_bug :
    ∀ (extr : String → List (String × List String)) (now : String),
      TextNormalizer.normalize (textCfg extr) now tsTextPayload
        = .ok (tsTextMessage extr)
      ∧ (tsTextMessage extr).message_type = MessageType.text
      ∧ (tsTextMessage extr).sender_id = "u1"
      ∧ (tsTextMessage extr).content = .str "hi"
      ∧ TextNormalizer.denormalize (textCfg extr) (tsTextMessage extr)
        = .error (.normalizationError
          "Failed to denormalize text message m1: 'str' object has no attribute 'isoformat'") :=
  fun _ _ => ⟨rfl, rfl, rfl, rfl, rfl⟩

/-- Denormalization of `buttonsMessage` at wall-clock `now`, as computed by
`InteractiveNormalizer.denormalize`. -/
def buttonsDenorm (now : String) : JObj :=
  [("id", .str "m3"),
   ("sender", .str "u1"),
   ("timestamp", .str now),
   ("channel", .str "c"),
   ("tenant", .str "t"),
   ("type", .str "interactive"),
   ("interactive", .obj buttonsRebuilt),
   ("metadata", .obj [("interactive_type", .str "button"),
                      ("interactive_count", .num 2)])]

/-- C8: normalizing the two-button interactive payload yields a `Message`
whose metadata records `interactive_type = "button"` and
`interactive_count = 2`, and denormalizing that `Message` reconstructs a
`\x7btype: "button", buttons: [...]\x7d` structure containing both buttons with
their ids and titles. -/
theorem C8_button_scenario :
    ∀ now : String,
      InteractiveNormalizer.normalize interactiveCfg now buttonsPayload
        = .ok (buttonsMessage now)
      ∧ jlookup (buttonsMessage now).metadata "interactive_type"
        = some (.str "button")
      ∧ jlookup (buttonsMessage now).metadata "interactive_count"
        = some (.num 2)
      ∧ InteractiveNormalizer.denormalize interactiveCfg (buttonsMessage now)
        = .ok (buttonsDenorm now)
      ∧ jlookup (buttonsDenorm now) "interactive" = some (.obj buttonsRebuilt)
      ∧ jlookup buttonsRebuilt "type" = some (.str "button")
      ∧ jlookup buttonsRebuilt "buttons" = some (.arr
          [.obj [("id", .str "b1"), ("title", .str "Yes"),
                 ("payload", .str ""), ("style", .str "default")],
           .obj [("id", .str "b2"), ("title", .str "No"),
                 ("payload", .str ""), ("style", .str "default")]]) :=
  fun _ => ⟨rfl, rfl, rfl, rfl, rfl, rfl, rfl⟩

/-- C9: with `allow_remote_urls = false`, normalizing any payload whose
extracted image reference is an http(s) URL — a string the code's own
`_is_url` test recognizes, with parsed scheme `http` or `https` — raises
`ValidationError("Remote image URLs are not allowed")` (the payload's
required `id` being present so that the structural check does not fire
first); and for every configuration, a non-URL image reference passes
`handle_url` as a valid opaque reference. -/
theorem C9_remote_url_validation :
    (∀ (cfg : ImageConfig) (now : String) (m d : JObj) (u : String),
      cfg.allow_remote_urls = false →
      (jlookup m "id").isSome = true →
      extractImageData m = .ok d →
      jlookup d "url" = some (.str u) →
      isUrlStr u = true →
      ((pyUrlparse u).1 = "http" ∨ (pyUrlparse u).1 = "https") →
      ImageNormalizer.normalize cfg now m =
        .error (.validationError "Remote image URLs are not allowed"))
    ∧ (∀ (cfg : ImageConfig) (v : JValue), isUrlV v = false →
      ImageNormalizer.handleUrl cfg v =
        .ok [("url", v), ("is_valid", .bool true),
             ("is_url", .bool false)]) := by
  constructor
  · intro cfg now m d u hallow hid hd hu hurl hscheme
    have hhu : ImageNormalizer.handleUrl cfg (.str u) =
        .error (.validationError "Remote image URLs are not allowed") := by
      have hv : isUrlV (.str u) = true := hurl
      rcases hp : pyUrlparse u with ⟨s, nl, pth⟩
      rw [hp] at hscheme
      simp only [Prod.fst] at hscheme
      have hs : (s = "http" || s = "https") = true := by
        rcases hscheme with h | h <;> simp [h]
      simp [ImageNormalizer.handleUrl, hv, hp, hallow, hs]
    have hval : ImageNormalizer.validate cfg m =
        .error (.validationError "Remote image URLs are not allowed") := by
      obtain ⟨idv, hidv⟩ := Option.isSome_iff_exists.mp hid
      simp [ImageNormalizer.validate, hidv, hd, hu, hhu, Bind.bind,
        Except.bind]
    simp [ImageNormalizer.normalize, wrapNormalize, hval, Bind.bind,
      Except.bind]
  · intro cfg v h
    simp [ImageNormalizer.handleUrl, h, jset, pure, Except.pure]

/-- C9 witness: both halves of the theorem at concrete inputs — the
spec's scenario-B payload (whose `image_url` is `https://x/y.png`) under the
no-remote-URLs configuration, and the opaque reference `"abc123"` (not a
URL) under the same configuration. -/
theorem C9_remote_url_validation_witness :
    ImageNormalizer.normalize imageCfgNoRemote "NOW" remoteImagePayload
      = .error (.validationError "Remote image URLs are not allowed")
    ∧ ImageNormalizer.handleUrl imageCfgNoRemote (.str "abc123") =
      .ok [("url", .str "abc123"), ("is_valid", .bool true),
           ("is_url", .bool false)] :=
  ⟨C9_remote_url_validation.1 imageCfgNoRemote "NOW" remoteImagePayload
      [("url", .str "https://x/y.png")] "https://x/y.png" rfl (by decide)
      rfl rfl (by decide) (Or.inr (by decide)),
   C9_remote_url_validation.2 imageCfgNoRemote (.str "abc123") (by decide)⟩

end MCP
